import Mathlib

/-!
Shallow embedding of the bed/ledger and clinical-document services of the
hospital-app-backend repository (app/services/lista_service.py,
receta_service.py, orden_service.py, nota_service.py) against the data
layer the repository actually defines (app/models/*.py, app/schemas/*.py),
together with proofs about the properties stated in the specification.

The service layer and the model layer disagree in two places, and the
embedding follows the models, because that is what the program runs on:
* `ListaService` queries `PacientePorCama.cama_id` / `.fecha_salida` and
  writes columns that models/lista.py does not define (its
  `PacientePorCama` is a per-bed record with `numero_cama`/`ocupada`/
  `estado_cama`), so every admit/discharge/transfer raises
  `AttributeError` while building a query, before any mutation;
* `OrdenService` eager-loads `OrdenCab.detalles` and reads
  `orden_data.detalles`, but the model relationship and the request field
  are named `examenes`, so every order lookup/create raises
  `AttributeError`; `RecetaService.crear_receta` reaches its auto-sign
  check and there reads the unloaded lazy relationship
  `db_receta.detalles` inside the `AsyncSession`, which raises
  SQLAlchemy's `MissingGreenlet` before the transaction commits.
These interpreter/ORM-level exceptions are modelled by the dedicated
`HospError` constructors below; they escape the application's own
exception taxonomy (app/core/exceptions.py).

Other conventions:
* timestamps (`datetime` values) are `Int` seconds since the epoch;
  calendar dates (`func.date(...)`) are a `Date` record; operations that
  read the clock take the current instant `now : Int` and, where the
  source also takes `.date()`, the current day `hoy : Date` as explicit
  parameters;
* every service operation returns the pair of the committed database state
  and an `Except` result, so a raised exception also reports the state
  visible after the operation (a raise before `db.commit()` leaves the
  input state);
* Python truthiness on optional strings (`or` / `if x:`) is modelled by
  `strTruthy`/`strOr`; the pydantic request validators of
  app/schemas/*.py are modelled as `...Valida` predicates, satisfied by
  every request object the calling layer can hand to a service.
-/

/-- Error kinds: the four exception classes of app/core/exceptions.py the
embedded services raise, plus the two interpreter/ORM-level exceptions
that escape them — Python's `AttributeError` (a class or request attribute
that does not exist) and SQLAlchemy's `MissingGreenlet` (synchronous lazy
load inside an `AsyncSession`). The payload of the last two abbreviates
the Python message. -/
inductive HospError where
  | notFound (msg : String)
  | validation (msg : String)
  | businessRule (msg : String)
  | medicoPermission (msg : String)
  | attributeError (msg : String)
  | missingGreenlet (msg : String)
  deriving Repr, DecidableEq

/-- `AttributeError: type object 'PacientePorCama' has no attribute
'cama_id'` — raised while `and_(PacientePorCama.cama_id == ..., ...)` is
built, in `asignar_paciente_cama` and `liberar_cama`. -/
def attributeErrorPacienteCamaId : HospError :=
  .attributeError "type object PacientePorCama has no attribute cama_id"

/-- `AttributeError: type object 'PacientePorCama' has no attribute
'fecha_salida'` — raised while the open-stay query of
`cambiar_servicio_paciente` is built (its `paciente_id` operand exists,
`fecha_salida` does not). -/
def attributeErrorPacienteFechaSalida : HospError :=
  .attributeError "type object PacientePorCama has no attribute fecha_salida"

/-- `AttributeError: type object 'OrdenCab' has no attribute 'detalles'` —
raised by `selectinload(OrdenCab.detalles)` in
`OrdenService.obtener_orden_por_id` (the model relationship is
`examenes`). -/
def attributeErrorOrdenCabDetalles : HospError :=
  .attributeError "type object OrdenCab has no attribute detalles"

/-- `AttributeError: 'OrdenCabCreate' object has no attribute 'detalles'`
— raised at `orden_data.detalles` in `_validar_creacion_orden` (the
request field is `examenes`). -/
def attributeErrorOrdenCreateDetalles : HospError :=
  .attributeError "OrdenCabCreate object has no attribute detalles"

/-- SQLAlchemy `MissingGreenlet` — raised when
`RecetaService._debe_auto_firmarse` reads `db_receta.detalles`, an
unloaded lazy relationship of the just-flushed header row, inside the
`AsyncSession`. -/
def missingGreenletRecetaDetalles : HospError :=
  .missingGreenlet "RecetaCab.detalles lazy load in AsyncSession"

/-- Python truthiness of an optional string (`None` and `""` are falsy). -/
def strTruthy : Option String → Bool
  | none => false
  | some s => !s.isEmpty

/-- Python `a or b` for an optional string `a` and a string `b`. -/
def strOr (a : Option String) (b : String) : String :=
  match a with
  | none => b
  | some s => if s.isEmpty then b else s

/-- Calendar date, as produced by `datetime.utcnow().date()`. -/
structure Date where
  year : Nat
  month : Nat
  day : Nat
  deriving Repr, DecidableEq

/-- Zero padding to a minimum width, the semantics of Python's `f"{n:04d}"`
(and of the zero-padded fields of `strftime`). -/
def padZeros (w : Nat) (n : Nat) : String :=
  let s := toString n
  String.mk (List.replicate (w - s.length) '0') ++ s

/-- `datetime.strftime("%Y%m%d")`. -/
def formatYYYYMMDD (d : Date) : String :=
  padZeros 4 d.year ++ padZeros 2 d.month ++ padZeros 2 d.day

/-! ## Bed registry and occupancy (app/services/lista_service.py)

models/lista.py defines `PacientePorCama` as one row PER BED (a bed
number, an `ocupada` flag, and a snapshot of the occupying patient) and
`EstructuraHospital` as one row per hospital. The service, however, was
written against a per-stay ledger: it queries `PacientePorCama.cama_id`,
`.fecha_salida`, and writes `nombre_paciente` / `motivo_ingreso` /
`dias_estancia` / `motivo_salida` / `creado_por`, none of which the model
defines. SQLAlchemy resolves these attributes on the mapped class while
the `select(...)` is being built, so each operation raises
`AttributeError` at its first such access, before the statement reaches
the database and before any write. Only the columns an operation can
actually reach are embedded. -/

/-- The columns of `PacientePorCama` (app/models/lista.py) relevant to the
embedded operations: one row per bed, carrying a snapshot of the occupying
patient while `ocupada` is set. The `cama_id`, `fecha_salida`,
`dias_estancia`, `motivo_ingreso`, `motivo_salida`, `nombre_paciente`,
`documento` and `creado_por` attributes the service queries and writes do
not exist on this model. -/
structure PacientePorCama where
  id : Nat
  numeroCama : String
  pacienteId : Option Nat
  pacienteNombre : Option String
  pacienteDocumento : Option String
  ocupada : Bool
  estadoCama : String
  hospitalizacionId : Option Nat
  fechaIngreso : Option Int
  servicio : Option String
  estructuraId : Option Nat
  deriving Repr, DecidableEq

/-- The columns of `EstructuraHospital` (app/models/lista.py) the embedded
operations can reach: one per-hospital configuration row. It has no
`estado_cama` column either, so the bed-state writes of the service have
no column to land on. -/
structure EstructuraHospital where
  id : Nat
  hospitalId : Nat
  nombreHospital : String
  totalCamas : Nat
  activo : Bool
  deriving Repr, DecidableEq

/-- The persistent state touched by the embedded `ListaService`
operations: the per-hospital registry rows and the per-bed rows. -/
structure ListaState where
  estructuras : List EstructuraHospital
  camas : List PacientePorCama
  deriving Repr, DecidableEq

/-- The request schema `MovimientoCamaCreate` (app/schemas/lista.py); the
schema does define the per-stay fields, only the model does not. -/
structure MovimientoCamaCreate where
  camaId : Nat
  pacienteId : Nat
  nombrePaciente : String
  documento : String
  fechaIngreso : Option Int
  motivoIngreso : String
  observaciones : Option String
  deriving Repr, DecidableEq

/-- The bed-exists check of `asignar_paciente_cama`:
`select(EstructuraHospital).where(EstructuraHospital.id ==
movimiento_data.cama_id)` with `scalar_one_or_none()`. Both operands
exist, so this is the one lista query that runs — against the
per-hospital registry rows. -/
def findEstructura (s : ListaState) (camaId : Nat) : Option EstructuraHospital :=
  s.estructuras.find? (fun c => c.id == camaId)

/-- `ListaService.asignar_paciente_cama`: the bed-exists check runs and
can raise `NotFoundError`; the availability query then names
`PacientePorCama.cama_id`, which the model does not define, so every
surviving call raises `AttributeError` with the state untouched. -/
def asignar_paciente_cama (s : ListaState) (mov : MovimientoCamaCreate)
    (_usuarioId : Nat) : ListaState × Except HospError PacientePorCama :=
  match findEstructura s mov.camaId with
  | none => (s, .error (.notFound ("Cama no encontrada con ID: " ++ toString mov.camaId)))
  | some _ => (s, .error attributeErrorPacienteCamaId)

/-- `ListaService.liberar_cama`: its first statement builds
`select(PacientePorCama).where(and_(PacientePorCama.cama_id == cama_id,
PacientePorCama.fecha_salida.is_(None)))`, so every call raises
`AttributeError` before any check or write. -/
def liberar_cama (s : ListaState) (_camaId : Nat) (_motivoSalida : String)
    (_observaciones : Option String) (_usuarioId : Nat) :
    ListaState × Except HospError Bool :=
  (s, .error attributeErrorPacienteCamaId)

/-- `ListaService.cambiar_servicio_paciente`: its first statement builds
the open-stay query `and_(PacientePorCama.paciente_id == paciente_id,
PacientePorCama.fecha_salida.is_(None))`; `paciente_id` exists but
`fecha_salida` does not, so every call raises `AttributeError` before any
read or write — in particular before the `liberar_cama` /
`asignar_paciente_cama` pair it would otherwise run. -/
def cambiar_servicio_paciente (s : ListaState) (_pacienteId : Nat)
    (_nuevaCamaId : Nat) (_motivoCambio : String) (_observaciones : Option String)
    (_usuarioId : Nat) : ListaState × Except HospError PacientePorCama :=
  (s, .error attributeErrorPacienteFechaSalida)

/-- One call of an embedded `ListaService` mutation (the resulting state
is the committed state whether the call succeeds or raises). -/
inductive ListaStep : ListaState → ListaState → Prop where
  | asignar (s : ListaState) (mov : MovimientoCamaCreate) (u : Nat) :
      ListaStep s (asignar_paciente_cama s mov u).1
  | liberar (s : ListaState) (cid : Nat) (mot : String) (obs : Option String)
      (u : Nat) :
      ListaStep s (liberar_cama s cid mot obs u).1
  | cambiar (s : ListaState) (pid ncid : Nat) (mot : String) (obs : Option String)
      (u : Nat) :
      ListaStep s (cambiar_servicio_paciente s pid ncid mot obs u).1

/-- Reachability through the embedded `ListaService` mutations. -/
inductive ListaReachable (s0 : ListaState) : ListaState → Prop where
  | refl : ListaReachable s0 s0
  | step {s t : ListaState} : ListaReachable s0 s → ListaStep s t → ListaReachable s0 t

/-! ## Clinical documents: shared pieces

`RecetaService`, `OrdenService` and `NotaService` (app/services/) share the
user table lookups and the error taxonomy; each keeps its own document
table. -/

/-- The columns of `User` (app/models/user.py) the document services read. -/
structure User where
  id : Nat
  username : String
  nombreCompleto : Option String
  especialidad : Option String
  colegiatura : Option String
  isActive : Bool
  deriving Repr, DecidableEq

/-- `select(User).where(User.id == id)` with `scalar_one_or_none()`. -/
def findUser (users : List User) (uid : Nat) : Option User :=
  users.find? (fun u => u.id == uid)

/-- The doctor snapshot assembled by the services' `_obtener_info_medico`. -/
structure MedicoInfo where
  nombreCompleto : String
  especialidad : Option String
  colegiatura : Option String
  deriving Repr, DecidableEq

/-- `_obtener_info_medico` (identical in the receta, orden and nota
services): `nombre_completo or username` uses Python string truthiness. -/
def obtenerInfoMedico (users : List User) (medicoId : Nat) :
    Except HospError MedicoInfo :=
  match findUser users medicoId with
  | none => .error (.notFound ("Médico no encontrado con ID: " ++ toString medicoId))
  | some medico =>
    .ok { nombreCompleto := strOr medico.nombreCompleto medico.username
          especialidad := medico.especialidad
          colegiatura := medico.colegiatura }

/-- Decidable equality of service results (not provided by core for
`Except`). -/
instance {ε α : Type} [DecidableEq ε] [DecidableEq α] : DecidableEq (Except ε α) :=
  fun a b =>
    match a, b with
    | .ok x, .ok y =>
      if h : x = y then isTrue (congrArg Except.ok h)
      else isFalse (fun he => h (by cases he; rfl))
    | .error x, .error y =>
      if h : x = y then isTrue (congrArg Except.error h)
      else isFalse (fun he => h (by cases he; rfl))
    | .ok _, .error _ => isFalse (fun he => Except.noConfusion he)
    | .error _, .ok _ => isFalse (fun he => Except.noConfusion he)

/-- Whether an embedded service call returned without raising. -/
def resultOk {α : Type} (r : Except HospError α) : Bool :=
  match r with
  | .ok _ => true
  | .error _ => false

/-- Whether an embedded service call raised the `ValidationException` kind. -/
def isValidationError {α : Type} (r : Except HospError α) : Bool :=
  match r with
  | .error (.validation _) => true
  | _ => false

/-- Whether a raise is one of the four application exception classes of
app/core/exceptions.py, as opposed to an `AttributeError` or
`MissingGreenlet` escaping the application taxonomy. -/
def isAppException {α : Type} (r : Except HospError α) : Bool :=
  match r with
  | .error (.notFound _) => true
  | .error (.validation _) => true
  | .error (.businessRule _) => true
  | .error (.medicoPermission _) => true
  | _ => false

/-- Whether a raise is the `MedicoPermissionException` kind (HTTP 403),
the only permission-denied class of app/core/exceptions.py. -/
def isPermissionDenied {α : Type} (r : Except HospError α) : Bool :=
  match r with
  | .error (.medicoPermission _) => true
  | _ => false

/-! ## Prescriptions (app/services/receta_service.py) -/

/-- The columns of `RecetaDet` (app/models/receta.py) written at creation. -/
structure RecetaDet where
  recetaId : Nat
  medicamentoId : Option Nat
  medicamentoCodigo : String
  medicamentoNombre : String
  cantidad : Int
  unidad : String
  posologia : Option String
  duracionTratamiento : Option String
  observaciones : Option String
  sustituible : Bool
  deriving Repr, DecidableEq

/-- `RecetaDetCreate` (app/schemas/receta.py). -/
structure RecetaDetCreate where
  medicamentoCodigo : String
  medicamentoNombre : String
  cantidad : Int
  unidad : String
  posologia : Option String
  duracionTratamiento : Option String
  medicamentoId : Option Nat
  observaciones : Option String
  sustituible : Bool
  deriving Repr, DecidableEq

/-- The columns of `RecetaCab` (app/models/receta.py) the service touches. -/
structure RecetaCab where
  id : Nat
  numeroReceta : String
  tipoOrigen : String
  origenId : Nat
  pacienteId : Nat
  pacienteNombre : String
  pacienteDocumento : String
  diagnosticoPrincipal : Option String
  indicacionesGenerales : Option String
  fechaVencimiento : Option Int
  creadoPor : Nat
  medicoNombre : String
  medicoColegiatura : Option String
  estado : String
  firmada : Bool
  fechaFirma : Option Int
  hashFirma : Option String
  createdAt : Date
  detalles : List RecetaDet
  deriving Repr, DecidableEq

/-- `RecetaCabCreate` (app/schemas/receta.py). -/
structure RecetaCabCreate where
  tipoOrigen : String
  origenId : Nat
  pacienteId : Nat
  pacienteNombre : String
  pacienteDocumento : String
  diagnosticoPrincipal : Option String
  indicacionesGenerales : Option String
  fechaVencimiento : Option Int
  detalles : List RecetaDetCreate
  deriving Repr, DecidableEq

/-- `RecetaCabUpdate` (app/schemas/receta.py); a `some` field is a field
present in the request (`model_dump(exclude_unset=True)`). -/
structure RecetaCabUpdate where
  diagnosticoPrincipal : Option String
  indicacionesGenerales : Option String
  fechaVencimiento : Option Int
  deriving Repr, DecidableEq

/-- The pydantic validator `RecetaDetBase.validate_cantidad`
(app/schemas/receta.py): `0 < cantidad ≤ 2`. -/
def recetaDetCreateValida (d : RecetaDetCreate) : Bool :=
  decide (0 < d.cantidad) && decide (d.cantidad ≤ 2)

/-- The pydantic validators a `RecetaCabCreate` request passes before any
service code runs (app/schemas/receta.py): `tipo_origen` in
{HOS, CON, EME}, between 1 and 10 detail lines (`validate_detalles`), and
every line within `validate_cantidad`. FastAPI rejects a request failing
these at parsing, so only requests satisfying this predicate reach
`crear_receta`. -/
def recetaCabCreateValida (data : RecetaCabCreate) : Bool :=
  (data.tipoOrigen == "HOS" || data.tipoOrigen == "CON" || data.tipoOrigen == "EME") &&
    decide (1 ≤ data.detalles.length) && decide (data.detalles.length ≤ 10) &&
    data.detalles.all recetaDetCreateValida

/-- A row of `MedicamentoVademecum` (app/models/catalogos.py) as read by
`_crear_detalle_receta`. -/
structure MedicamentoVademecum where
  id : Nat
  codigo : String
  nombreComercial : String
  deriving Repr, DecidableEq

/-- The prescription tables touched by the embedded `RecetaService`. -/
structure RecetaState where
  users : List User
  vademecum : List MedicamentoVademecum
  recetas : List RecetaCab
  nextId : Nat
  deriving Repr, DecidableEq

/-- `RecetaService.obtener_receta_por_id`. -/
def obtener_receta_por_id (s : RecetaState) (recetaId : Nat) : Option RecetaCab :=
  s.recetas.find? (fun r => r.id == recetaId)

/-- The prescriptions created on day `hoy`
(`func.date(RecetaCab.created_at) == hoy`). -/
def countRecetasDia (s : RecetaState) (hoy : Date) : Nat :=
  (s.recetas.filter (fun r => r.createdAt == hoy)).length

/-- The same-day duplicate count of `_validar_creacion_receta`: active or
dispensed prescriptions of the same origin and patient created today. -/
def recetasDuplicadasHoy (s : RecetaState) (data : RecetaCabCreate)
    (hoy : Date) : Nat :=
  (s.recetas.filter (fun r =>
    r.tipoOrigen == data.tipoOrigen && r.origenId == data.origenId &&
    r.pacienteId == data.pacienteId && r.createdAt == hoy &&
    (r.estado == "01" || r.estado == "02"))).length

/-- `RecetaService._validar_creacion_receta`. -/
def validarCreacionReceta (s : RecetaState) (data : RecetaCabCreate)
    (medicoId : Nat) (hoy : Date) : Except HospError Unit :=
  match findUser s.users medicoId with
  | none => .error (.businessRule "Solo médicos pueden crear recetas")
  | some medico =>
    if !(strTruthy medico.especialidad) || !(strTruthy medico.colegiatura) then
      .error (.businessRule "Solo médicos pueden crear recetas")
    else if recetasDuplicadasHoy s data hoy > 0 then
      .error (.businessRule "Ya existe una receta activa para este paciente hoy")
    else if data.detalles.length > 10 then
      .error (.businessRule "Máximo 10 medicamentos por receta")
    else if data.detalles.length == 0 then
      .error (.businessRule "La receta debe tener al menos un medicamento")
    else .ok ()

/-- `RecetaService._generar_numero_receta`. -/
def generarNumeroReceta (s : RecetaState) (hoy : Date) : String :=
  "RX" ++ formatYYYYMMDD hoy ++ padZeros 4 (countRecetasDia s hoy + 1)

/-- `RecetaService._crear_detalle_receta` (the vademécum lookup runs when
the request's `medicamento_codigo` is truthy and `medicamento_id` falsy;
`x or y` falls back on falsy `x`, so id `0` and the empty name also fall
back). -/
def crearDetalleReceta (vademecum : List MedicamentoVademecum) (recetaId : Nat)
    (d : RecetaDetCreate) : RecetaDet :=
  let info : Option MedicamentoVademecum :=
    if !d.medicamentoCodigo.isEmpty && d.medicamentoId.getD 0 == 0 then
      vademecum.find? (fun m => m.codigo == d.medicamentoCodigo)
    else none
  { recetaId := recetaId
    medicamentoId :=
      match info with
      | some m => if m.id == 0 then d.medicamentoId else some m.id
      | none => d.medicamentoId
    medicamentoCodigo := d.medicamentoCodigo
    medicamentoNombre :=
      match info with
      | some m => if m.nombreComercial.isEmpty then d.medicamentoNombre
                  else m.nombreComercial
      | none => d.medicamentoNombre
    cantidad := d.cantidad
    unidad := d.unidad
    posologia := d.posologia
    duracionTratamiento := d.duracionTratamiento
    observaciones := d.observaciones
    sustituible := d.sustituible }

/-- `RecetaService.crear_receta`: validation and the doctor lookup run
(and can raise their own errors); the header row — numbered by
`generarNumeroReceta` — and its detail rows (via `_crear_detalle_receta`)
are then built and flushed, but `_debe_auto_firmarse(db, db_receta)` reads
`db_receta.detalles`, the still-unloaded lazy relationship of the freshly
flushed header, inside the `AsyncSession`: SQLAlchemy raises
`MissingGreenlet` and the transaction is rolled back before `db.commit()`,
so no call ever persists anything. -/
def crear_receta (s : RecetaState) (data : RecetaCabCreate) (medicoId : Nat)
    (_now : Int) (hoy : Date) : RecetaState × Except HospError RecetaCab :=
  match validarCreacionReceta s data medicoId hoy with
  | .error e => (s, .error e)
  | .ok _ =>
    match obtenerInfoMedico s.users medicoId with
    | .error e => (s, .error e)
    | .ok _ => (s, .error missingGreenletRecetaDetalles)

/-- `RecetaService._validar_modificacion_receta`. -/
def validarModificacionReceta (receta : RecetaCab) (medicoId : Nat)
    (now : Int) : Except HospError Unit :=
  if receta.creadoPor ≠ medicoId then
    .error (.businessRule "Solo el médico creador puede modificar la receta")
  else if receta.estado ≠ "01" then
    .error (.businessRule "Solo se pueden modificar recetas activas")
  else
    match receta.fechaVencimiento with
    | some v =>
      if now > v - 86400 then
        .error (.businessRule "No se puede modificar la receta tan cerca del vencimiento")
      else .ok ()
    | none => .ok ()

/-- `RecetaService.actualizar_receta`. -/
def actualizar_receta (s : RecetaState) (recetaId : Nat) (data : RecetaCabUpdate)
    (medicoId : Nat) (now : Int) : RecetaState × Except HospError RecetaCab :=
  match obtener_receta_por_id s recetaId with
  | none => (s, .error (.notFound ("Receta no encontrada con ID: " ++ toString recetaId)))
  | some receta =>
    match validarModificacionReceta receta medicoId now with
    | .error e => (s, .error e)
    | .ok _ =>
      let r2 : RecetaCab :=
        { receta with
            diagnosticoPrincipal :=
              match data.diagnosticoPrincipal with
              | some v => some v
              | none => receta.diagnosticoPrincipal
            indicacionesGenerales :=
              match data.indicacionesGenerales with
              | some v => some v
              | none => receta.indicacionesGenerales
            fechaVencimiento :=
              match data.fechaVencimiento with
              | some v => some v
              | none => receta.fechaVencimiento }
      ({ s with recetas := s.recetas.map (fun r => if r.id == recetaId then r2 else r) },
       .ok r2)

/-- The `transiciones_validas` dictionary of
`RecetaService._validar_cambio_estado` (01 = Activa, 02 = Despachada,
03 = Vencida, 04 = Anulada). -/
def transicionesValidasReceta (estado : String) : List String :=
  if estado == "01" then ["02", "04"]
  else if estado == "02" then ["04"]
  else if estado == "03" then ["04"]
  else []

/-- `RecetaService._validar_cambio_estado`. -/
def validarCambioEstadoReceta (receta : RecetaCab) (nuevoEstado : String)
    (medicoId : Nat) : Except HospError Unit :=
  if receta.creadoPor ≠ medicoId then
    .error (.businessRule "Solo el médico creador puede cambiar el estado")
  else if !(transicionesValidasReceta receta.estado).contains nuevoEstado then
    .error (.businessRule ("Transición no válida de " ++ receta.estado ++ " a " ++ nuevoEstado))
  else .ok ()

/-- `RecetaService.cambiar_estado_receta`. -/
def cambiar_estado_receta (s : RecetaState) (recetaId : Nat)
    (nuevoEstado : String) (medicoId : Nat) :
    RecetaState × Except HospError RecetaCab :=
  match obtener_receta_por_id s recetaId with
  | none => (s, .error (.notFound ("Receta no encontrada con ID: " ++ toString recetaId)))
  | some receta =>
    match validarCambioEstadoReceta receta nuevoEstado medicoId with
    | .error e => (s, .error e)
    | .ok _ =>
      let r2 : RecetaCab :=
        if nuevoEstado == "04" then
          { receta with estado := nuevoEstado, firmada := false,
                        fechaFirma := none, hashFirma := none }
        else { receta with estado := nuevoEstado }
      ({ s with recetas := s.recetas.map (fun r => if r.id == recetaId then r2 else r) },
       .ok r2)

/-! ## Medical orders (app/services/orden_service.py) -/

/-! ### Orders

app/models/orden.py names the detail relationship of `OrdenCab`
`examenes`, and app/schemas/orden.py names the request detail list
`examenes` too; the service reads both as `detalles`. Consequently
`obtener_orden_por_id` — the entry point of every read, update and status
change — raises `AttributeError` while `selectinload(OrdenCab.detalles)`
is built, and `_validar_creacion_orden` raises `AttributeError` at
`orden_data.detalles` right after its doctor check. The code behind those
accesses is embedded as the source writes it, but only its error paths can
ever run. -/

/-- The exam-line request schema `OrdenDetCreate` (app/schemas/orden.py). -/
structure OrdenDetCreate where
  examenCodigo : String
  examenNombre : String
  examenCategoria : Option String
  especificaciones : Option String
  preparacionRequerida : Option String
  examenId : Option Nat
  deriving Repr, DecidableEq

/-- The columns of `OrdenCab` (app/models/orden.py) the embedded
operations touch; the model relationship to its exam rows is named
`examenes` — there is no `detalles` attribute. -/
structure OrdenCab where
  id : Nat
  numeroOrden : String
  hospitalizacionId : Nat
  pacienteId : Nat
  tipoOrden : String
  diagnostico : Option String
  indicacionesClinicas : Option String
  observaciones : Option String
  estado : String
  prioridad : String
  creadoPor : Nat
  fechaProgramada : Option Int
  servicioDestino : Option String
  deriving Repr, DecidableEq

/-- The request schema `OrdenCabCreate` (app/schemas/orden.py): its
detail list is the field `examenes`; a `detalles` field does not exist. -/
structure OrdenCabCreate where
  hospitalizacionId : Nat
  numeroCuenta : Option String
  tipoOrden : String
  diagnostico : Option String
  indicacionesClinicas : Option String
  observaciones : Option String
  prioridad : String
  pacienteId : Nat
  pacienteNombre : String
  pacienteDocumento : String
  pacienteEdad : Option Nat
  pacienteGenero : Option String
  pacienteCama : Option String
  pacienteSala : Option String
  medicoNombre : Option String
  fechaSolicitada : Option Int
  servicioDestino : Option String
  examenes : List OrdenDetCreate
  deriving Repr, DecidableEq

/-- The pydantic validators an `OrdenCabCreate` request passes before any
service code runs (app/schemas/orden.py): `tipo_orden` one of the
`TipoOrden` enum codes 01–04, `prioridad` one of the `PrioridadOrden`
enum values, and at least one exam line (`validate_examenes`); there is no
upper bound on the number of exam lines. -/
def ordenCabCreateValida (data : OrdenCabCreate) : Bool :=
  (data.tipoOrden == "01" || data.tipoOrden == "02" ||
      data.tipoOrden == "03" || data.tipoOrden == "04") &&
    (data.prioridad == "URGENTE" || data.prioridad == "NORMAL" ||
      data.prioridad == "BAJA") &&
    decide (1 ≤ data.examenes.length)

/-- `OrdenCabUpdate` (app/schemas/orden.py); a `some` field is a field
present in the request (`model_dump(exclude_unset=True)`). -/
structure OrdenCabUpdate where
  diagnostico : Option String
  indicacionesClinicas : Option String
  observaciones : Option String
  prioridad : Option String
  estado : Option String
  fechaProgramada : Option Int
  servicioDestino : Option String
  deriving Repr, DecidableEq

/-- The order tables touched by the embedded `OrdenService`. -/
structure OrdenState where
  users : List User
  ordenes : List OrdenCab
  deriving Repr, DecidableEq

/-- `OrdenService.obtener_orden_por_id`: the query is built with
`selectinload(OrdenCab.detalles)`, but the model relationship is named
`examenes`, so the lookup raises `AttributeError` before executing — for
every state and id. -/
def obtener_orden_por_id (_s : OrdenState) (_ordenId : Nat) :
    Except HospError (Option OrdenCab) :=
  .error attributeErrorOrdenCabDetalles

/-- `OrdenService._validar_creacion_orden`: the doctor check runs (no
colegiatura requirement here, unlike recetas); the next statement
`if orden_data.detalles:` reads a field the request schema does not
define (it has `examenes`), raising `AttributeError`, so the duplicate
scan and the count bounds below it — including the
`Máximo 20 exámenes por orden` rule — are unreachable. -/
def validarCreacionOrden (s : OrdenState) (_data : OrdenCabCreate)
    (medicoId : Nat) : Except HospError Unit :=
  match findUser s.users medicoId with
  | none => .error (.businessRule "Solo médicos pueden crear órdenes")
  | some medico =>
    if !(strTruthy medico.especialidad) then
      .error (.businessRule "Solo médicos pueden crear órdenes")
    else
      .error attributeErrorOrdenCreateDetalles

/-- `OrdenService.crear_orden`: validation raises for every call (doctor
error or `AttributeError`); the `.ok` branch is unreachable, and the
continuation would itself begin with another `orden_data.detalles` access
(`_generar_numero_orden(db, orden_data.detalles[0]...)`), so it is mapped
to the same raise. -/
def crear_orden (s : OrdenState) (data : OrdenCabCreate) (medicoId : Nat) :
    OrdenState × Except HospError OrdenCab :=
  match validarCreacionOrden s data medicoId with
  | .error e => (s, .error e)
  | .ok _ => (s, .error attributeErrorOrdenCreateDetalles)

/-- `OrdenService._validar_modificacion_orden` (dead code: its only
caller crashes in the preceding lookup; embedded as written). -/
def validarModificacionOrden (orden : OrdenCab) (medicoId : Nat) :
    Except HospError Unit :=
  if orden.creadoPor ≠ medicoId then
    .error (.businessRule "Solo el médico creador puede modificar la orden")
  else if !(orden.estado == "01" || orden.estado == "02") then
    .error (.businessRule "Solo se pueden modificar órdenes pendientes o programadas")
  else .ok ()

/-- The `transiciones_validas` dictionary of
`OrdenService._validar_cambio_estado` (dead code; 01 = Pendiente,
02 = Programada, 03 = En Proceso, 04 = Completada, 05 = Cancelada). -/
def transicionesValidasOrden (estado : String) : List String :=
  if estado == "01" then ["02", "03", "05"]
  else if estado == "02" then ["03", "05"]
  else if estado == "03" then ["04", "05"]
  else if estado == "04" then []
  else if estado == "05" then []
  else []

/-- `OrdenService._validar_cambio_estado` (dead code): unlike the receta
and nota counterparts it never reads `medico_id`. -/
def validarCambioEstadoOrden (orden : OrdenCab) (nuevoEstado : String)
    (_medicoId : Nat) : Except HospError Unit :=
  if !(transicionesValidasOrden orden.estado).contains nuevoEstado then
    .error (.businessRule ("Transición no válida de " ++ orden.estado ++ " a " ++ nuevoEstado))
  else .ok ()

/-- `OrdenService.actualizar_orden`: the opening `obtener_orden_por_id`
raises for every call, so only the first branch is live; the remaining
branches transcribe the source so the raise is visibly the sole
reachable outcome. -/
def actualizar_orden (s : OrdenState) (ordenId : Nat) (data : OrdenCabUpdate)
    (medicoId : Nat) : OrdenState × Except HospError OrdenCab :=
  match obtener_orden_por_id s ordenId with
  | .error e => (s, .error e)
  | .ok none => (s, .error (.notFound ("Orden no encontrada con ID: " ++ toString ordenId)))
  | .ok (some orden) =>
    match validarModificacionOrden orden medicoId with
    | .error e => (s, .error e)
    | .ok _ =>
      let o2 : OrdenCab :=
        { orden with
            diagnostico :=
              match data.diagnostico with
              | some v => some v
              | none => orden.diagnostico
            indicacionesClinicas :=
              match data.indicacionesClinicas with
              | some v => some v
              | none => orden.indicacionesClinicas
            observaciones :=
              match data.observaciones with
              | some v => some v
              | none => orden.observaciones
            prioridad := data.prioridad.getD orden.prioridad
            estado := data.estado.getD orden.estado
            fechaProgramada :=
              match data.fechaProgramada with
              | some v => some v
              | none => orden.fechaProgramada
            servicioDestino :=
              match data.servicioDestino with
              | some v => some v
              | none => orden.servicioDestino }
      ({ s with ordenes := s.ordenes.map (fun o => if o.id == ordenId then o2 else o) },
       .ok o2)

/-- `OrdenService.cambiar_estado_orden`: the opening lookup raises for
every call; in the transcribed dead continuation, completing (04) would
additionally crash at the instance access `orden.detalles`. -/
def cambiar_estado_orden (s : OrdenState) (ordenId : Nat) (nuevoEstado : String)
    (medicoId : Nat) : OrdenState × Except HospError OrdenCab :=
  match obtener_orden_por_id s ordenId with
  | .error e => (s, .error e)
  | .ok none => (s, .error (.notFound ("Orden no encontrada con ID: " ++ toString ordenId)))
  | .ok (some orden) =>
    match validarCambioEstadoOrden orden nuevoEstado medicoId with
    | .error e => (s, .error e)
    | .ok _ =>
      if nuevoEstado == "04" then
        (s, .error attributeErrorOrdenCabDetalles)
      else
        let o2 : OrdenCab := { orden with estado := nuevoEstado }
        ({ s with ordenes := s.ordenes.map (fun o => if o.id == ordenId then o2 else o) },
         .ok o2)

/-! ## Clinical notes (app/services/nota_service.py) -/

/-- The columns of `HospitalizacionNota` (app/models/nota.py) touched by
the embedded operations. -/
structure HospitalizacionNota where
  id : Nat
  hospitalizacionId : Nat
  numeroCuenta : Option String
  pacienteId : Option Nat
  pacienteNombre : Option String
  tipoNota : String
  contenidoNota : String
  observaciones : Option String
  estado : String
  creadoPor : Nat
  medicoNombre : String
  firmada : Bool
  creadoEn : Int
  actualizadoEn : Option Int
  finalizadoEn : Option Int
  deriving Repr, DecidableEq

/-- `NotaUpdate` (app/schemas/nota.py); a `some` field is a field present
in the request. -/
structure NotaUpdate where
  contenidoNota : Option String
  observaciones : Option String
  deriving Repr, DecidableEq

/-- The note table touched by the embedded `NotaService`. -/
structure NotaState where
  users : List User
  notas : List HospitalizacionNota
  deriving Repr, DecidableEq

/-- `NotaService.obtener_nota_por_id`. -/
def obtener_nota_por_id (s : NotaState) (notaId : Nat) : Option HospitalizacionNota :=
  s.notas.find? (fun n => n.id == notaId)

/-- `NotaService._validar_permisos_edicion`. -/
def validarPermisosEdicion (nota : HospitalizacionNota) (medicoId : Nat) :
    Except HospError Unit :=
  if nota.creadoPor ≠ medicoId then
    .error (.medicoPermission "Solo el médico creador puede editar la nota")
  else if nota.estado ≠ "BORRADOR" then
    .error (.businessRule "Solo se pueden editar notas en borrador")
  else if nota.firmada then
    .error (.businessRule "No se pueden editar notas firmadas")
  else .ok ()

/-- `NotaService.actualizar_nota`. -/
def actualizar_nota (s : NotaState) (notaId : Nat) (data : NotaUpdate)
    (medicoId : Nat) (now : Int) : NotaState × Except HospError HospitalizacionNota :=
  match obtener_nota_por_id s notaId with
  | none => (s, .error (.notFound ("Nota no encontrada con ID: " ++ toString notaId)))
  | some nota =>
    match validarPermisosEdicion nota medicoId with
    | .error e => (s, .error e)
    | .ok _ =>
      let n2 : HospitalizacionNota :=
        { nota with
            contenidoNota := data.contenidoNota.getD nota.contenidoNota
            observaciones :=
              match data.observaciones with
              | some v => some v
              | none => nota.observaciones
            actualizadoEn := some now }
      ({ s with notas := s.notas.map (fun n => if n.id == notaId then n2 else n) },
       .ok n2)

/-- `NotaService.finalizar_nota`. -/
def finalizar_nota (s : NotaState) (notaId : Nat) (medicoId : Nat) (now : Int) :
    NotaState × Except HospError HospitalizacionNota :=
  match obtener_nota_por_id s notaId with
  | none => (s, .error (.notFound ("Nota no encontrada con ID: " ++ toString notaId)))
  | some nota =>
    if nota.creadoPor ≠ medicoId then
      (s, .error (.medicoPermission "Solo el médico creador puede finalizar la nota"))
    else if nota.estado ≠ "BORRADOR" then
      (s, .error (.businessRule "Solo se pueden finalizar notas en borrador"))
    else
      let n2 : HospitalizacionNota :=
        { nota with estado := "FINALIZADA", finalizadoEn := some now,
                    actualizadoEn := some now }
      ({ s with notas := s.notas.map (fun n => if n.id == notaId then n2 else n) },
       .ok n2)

/-! ## Spec-side transition graphs (§4.3), for comparison with the code -/

/-- The §4.3 prescription graph as the spec states it, on the status codes
01 = ACTIVE, 02 = DISPENSED, 03 = EXPIRED, 04 = VOID (it contains the
`ACTIVE → EXPIRED` edge). -/
def recetaGraphSpec : List (String × String) :=
  [("01", "02"), ("01", "03"), ("01", "04"), ("02", "04"), ("03", "04")]

/-- The prescription graph the code enforces: the spec graph without the
`ACTIVE → EXPIRED` edge. -/
def recetaGraphCode : List (String × String) :=
  [("01", "02"), ("01", "04"), ("02", "04"), ("03", "04")]

/-! ## Concrete states used by the witnesses and counterexamples -/

/-- The hospital registry row (id 1). -/
def estructuraEj : EstructuraHospital :=
  { id := 1, hospitalId := 100, nombreHospital := "Hospital Central",
    totalCamas := 2, activo := true }

/-- A free bed row. -/
def camaLibre : PacientePorCama :=
  { id := 1, numeroCama := "CAMA-01", pacienteId := none,
    pacienteNombre := none, pacienteDocumento := none, ocupada := false,
    estadoCama := "DISPONIBLE", hospitalizacionId := none,
    fechaIngreso := none, servicio := some "MEDICINA", estructuraId := some 1 }

/-- Bed ICU-01 occupied by patient 7, admitted 2024-01-01T08:00Z
(epoch second 1704096000). -/
def camaICU : PacientePorCama :=
  { id := 1, numeroCama := "ICU-01", pacienteId := some 7,
    pacienteNombre := some "Jane Doe", pacienteDocumento := some "12345678",
    ocupada := true, estadoCama := "OCUPADA", hospitalizacionId := some 500,
    fechaIngreso := some 1704096000, servicio := some "UCI",
    estructuraId := some 1 }

/-- A second bed occupied by patient 8. -/
def camaOtra : PacientePorCama :=
  { id := 2, numeroCama := "CAMA-02", pacienteId := some 8,
    pacienteNombre := some "John Roe", pacienteDocumento := some "87654321",
    ocupada := true, estadoCama := "OCUPADA", hospitalizacionId := some 501,
    fechaIngreso := some 1704100000, servicio := some "CIRUGIA",
    estructuraId := some 1 }

/-- Registry row 1, one free bed. -/
def listaEjemplo : ListaState :=
  { estructuras := [estructuraEj], camas := [camaLibre] }

/-- Registry row 1, bed ICU-01 occupied by patient 7. -/
def listaICU : ListaState :=
  { estructuras := [estructuraEj], camas := [camaICU] }

/-- Patients 7 and 8 occupy the two beds. -/
def listaTraslado : ListaState :=
  { estructuras := [estructuraEj], camas := [camaICU, camaOtra] }

/-- Scenario A/B request: Jane Doe onto registry id 1. -/
def movEjemplo : MovimientoCamaCreate :=
  { camaId := 1, pacienteId := 7, nombrePaciente := "Jane Doe",
    documento := "12345678", fechaIngreso := none,
    motivoIngreso := "EMERGENCIA", observaciones := none }

/-- A second admission request for patient 7, who already occupies bed
ICU-01, onto the existing registry id 1. -/
def movDoble : MovimientoCamaCreate :=
  { camaId := 1, pacienteId := 7, nombrePaciente := "Jane Doe",
    documento := "12345678", fechaIngreso := none,
    motivoIngreso := "REINGRESO", observaciones := none }

/-- A doctor account (specialty and license set, active). -/
def medicoUser : User :=
  { id := 1, username := "ghouse", nombreCompleto := some "Gregory House",
    especialidad := some "NEUROLOGIA", colegiatura := some "CMP123",
    isActive := true }

/-- A second doctor account. -/
def medicoUser2 : User :=
  { id := 2, username := "jwilson", nombreCompleto := some "James Wilson",
    especialidad := some "ONCOLOGIA", colegiatura := some "CMP456",
    isActive := true }

/-- 2024-01-01. -/
def d20240101 : Date := ⟨2024, 1, 1⟩

/-- Empty prescription table with the two doctors registered. -/
def recetaStateEjemplo : RecetaState :=
  { users := [medicoUser, medicoUser2], vademecum := [], recetas := [], nextId := 1 }

/-- One medication line (`cantidad` within the schema maximum of 2). -/
def recetaDetEj : RecetaDetCreate :=
  { medicamentoCodigo := "MED001", medicamentoNombre := "Paracetamol 500mg",
    cantidad := 1, unidad := "UNIDAD", posologia := some "1 cada 8 horas",
    duracionTratamiento := some "5 días", medicamentoId := none,
    observaciones := none, sustituible := true }

/-- A schema-valid prescription request with two medication lines. -/
def recetaCreate2 : RecetaCabCreate :=
  { tipoOrigen := "HOS", origenId := 5, pacienteId := 7,
    pacienteNombre := "Jane Doe", pacienteDocumento := "12345678",
    diagnosticoPrincipal := some "J00", indicacionesGenerales := none,
    fechaVencimiento := none,
    detalles := [recetaDetEj,
      { recetaDetEj with medicamentoCodigo := "MED002",
                         medicamentoNombre := "Ibuprofeno 400mg" }] }

/-- A prescription request with eleven medication lines (one over the
service maximum — and over the schema maximum, so not constructible
through the API). -/
def recetaCreate11 : RecetaCabCreate :=
  { recetaCreate2 with detalles := List.replicate 11 recetaDetEj }

/-- An update request touching only the diagnosis. -/
def recetaUpdateEj : RecetaCabUpdate :=
  { diagnosticoPrincipal := some "J06", indicacionesGenerales := none,
    fechaVencimiento := none }

/-- A signed active prescription authored by doctor 1. -/
def recetaActiva : RecetaCab :=
  { id := 1, numeroReceta := "RX202401010001", tipoOrigen := "HOS",
    origenId := 5, pacienteId := 7, pacienteNombre := "Jane Doe",
    pacienteDocumento := "12345678", diagnosticoPrincipal := none,
    indicacionesGenerales := none, fechaVencimiento := some 2592000,
    creadoPor := 1, medicoNombre := "Gregory House",
    medicoColegiatura := some "CMP123", estado := "01", firmada := true,
    fechaFirma := some 0, hashFirma := some "RX202401010001:1:0",
    createdAt := d20240101, detalles := [] }

/-- Prescription table holding `recetaActiva`. -/
def recetaStateActiva : RecetaState :=
  { users := [medicoUser, medicoUser2], vademecum := [],
    recetas := [recetaActiva], nextId := 2 }

/-- One exam line. -/
def ordenDetEj : OrdenDetCreate :=
  { examenCodigo := "LAB001", examenNombre := "Hemograma Completo",
    examenCategoria := some "LABORATORIO", especificaciones := none,
    preparacionRequerida := none, examenId := none }

/-- Empty order table with the two doctors registered. -/
def ordenStateEjemplo : OrdenState :=
  { users := [medicoUser, medicoUser2], ordenes := [] }

/-- A schema-valid order request with 21 exam lines (one over the
service maximum the spec cites; the schema imposes no upper bound, so
this request does reach the service). -/
def ordenCreate21 : OrdenCabCreate :=
  { hospitalizacionId := 5, numeroCuenta := none, tipoOrden := "01",
    diagnostico := some "J00", indicacionesClinicas := none,
    observaciones := none, prioridad := "NORMAL", pacienteId := 7,
    pacienteNombre := "Jane Doe", pacienteDocumento := "12345678",
    pacienteEdad := none, pacienteGenero := none, pacienteCama := none,
    pacienteSala := none, medicoNombre := none, fechaSolicitada := none,
    servicioDestino := none, examenes := List.replicate 21 ordenDetEj }

/-- A schema-valid order request with a single exam line. -/
def ordenCreate1 : OrdenCabCreate :=
  { ordenCreate21 with examenes := [ordenDetEj] }

/-- A pending order authored by doctor 1. -/
def ordenPendiente : OrdenCab :=
  { id := 1, numeroOrden := "ORD202401010001", hospitalizacionId := 5,
    pacienteId := 7, tipoOrden := "01", diagnostico := none,
    indicacionesClinicas := none, observaciones := none, estado := "01",
    prioridad := "NORMAL", creadoPor := 1, fechaProgramada := none,
    servicioDestino := none }

/-- Order table holding `ordenPendiente`. -/
def ordenStatePendiente : OrdenState :=
  { users := [medicoUser, medicoUser2], ordenes := [ordenPendiente] }

/-- An unsigned draft note authored by doctor 1. -/
def notaBorrador : HospitalizacionNota :=
  { id := 1, hospitalizacionId := 5, numeroCuenta := some "CTA001",
    pacienteId := some 7, pacienteNombre := some "Jane Doe", tipoNota := "01",
    contenidoNota := "Paciente estable, evoluciona favorablemente.",
    observaciones := none, estado := "BORRADOR", creadoPor := 1,
    medicoNombre := "Gregory House", firmada := false, creadoEn := 0,
    actualizadoEn := none, finalizadoEn := none }

/-- Note table holding `notaBorrador` and its finalized copy. -/
def notaStateEjemplo : NotaState :=
  { users := [medicoUser, medicoUser2],
    notas := [notaBorrador,
      { notaBorrador with id := 2, estado := "FINALIZADA", finalizadoEn := some 0 }] }

/-- The complete behaviour of the embedded admit: 404 when no registry
row has the requested id, otherwise the `AttributeError` of the
availability query; the state is returned untouched either way. -/
theorem asignar_paciente_cama_eq (s : ListaState) (mov : MovimientoCamaCreate)
    (u : Nat) :
    asignar_paciente_cama s mov u
      = (s, .error (match findEstructura s mov.camaId with
          | none => HospError.notFound ("Cama no encontrada con ID: " ++ toString mov.camaId)
          | some _ => attributeErrorPacienteCamaId)) := by
  unfold asignar_paciente_cama
  cases findEstructura s mov.camaId <;> rfl

/-- No embedded `ListaService` mutation changes the committed state. -/
theorem listaStep_state_eq {s t : ListaState} (h : ListaStep s t) : t = s := by
  cases h with
  | asignar mov u => rw [asignar_paciente_cama_eq s mov u]
  | liberar cid mot obs u => rfl
  | cambiar pid ncid mot obs u => rfl

/-- The receta validator's `contains` test agrees with the per-pair graph
`recetaGraphCode`. -/
theorem receta_contains_iff (estado nuevo : String) :
    (transicionesValidasReceta estado).contains nuevo = true
      ↔ (estado, nuevo) ∈ recetaGraphCode := by
  unfold transicionesValidasReceta recetaGraphCode
  by_cases h1 : estado = "01"
  · subst h1; simp
  · by_cases h2 : estado = "02"
    · subst h2; simp
    · by_cases h3 : estado = "03"
      · subst h3; simp
      · simp [h1, h2, h3]

/-- `crear_receta` raises on every call (validation error, doctor-lookup
error, or the `MissingGreenlet` of the auto-sign check) and never commits
anything. -/
theorem crear_receta_never_ok (s : RecetaState) (data : RecetaCabCreate)
    (m : Nat) (now : Int) (hoy : Date) :
    (crear_receta s data m now hoy).1 = s ∧
      resultOk (crear_receta s data m now hoy).2 = false := by
  unfold crear_receta
  cases validarCreacionReceta s data m hoy with
  | error e => exact ⟨rfl, rfl⟩
  | ok u =>
    cases obtenerInfoMedico s.users m with
    | error e => exact ⟨rfl, rfl⟩
    | ok info => exact ⟨rfl, rfl⟩

/-- `crear_orden` raises on every call (the doctor error or the
`AttributeError` at `orden_data.detalles`), commits nothing, and never
raises the `ValidationException` kind. -/
theorem crear_orden_never_ok (s : OrdenState) (data : OrdenCabCreate) (m : Nat) :
    (crear_orden s data m).1 = s ∧
      resultOk (crear_orden s data m).2 = false ∧
      isValidationError (crear_orden s data m).2 = false := by
  unfold crear_orden validarCreacionOrden
  cases findUser s.users m with
  | none => exact ⟨rfl, rfl, rfl⟩
  | some medico =>
    dsimp only
    by_cases hesp : (!(strTruthy medico.especialidad)) = true
    · rw [if_pos hesp]
      exact ⟨rfl, rfl, rfl⟩
    · rw [if_neg hesp]
      exact ⟨rfl, rfl, rfl⟩

/-- C2 (code bug): the transfer raises `AttributeError` while building
its very first query — the open-stay lookup names the nonexistent
`PacientePorCama.fecha_salida` — so neither the discharge half nor the
admit half ever runs and the state is returned untouched. The rollback
the claim demands is unfalsifiable only because the transfer itself is
unimplemented on this data model; evaluated concretely on the two-bed
state `listaTraslado`. -/
theorem c2_transfer_crashes_before_any_step :
    (∀ (s : ListaState) (pid ncid : Nat) (mot : String) (obs : Option String)
        (u : Nat),
        cambiar_servicio_paciente s pid ncid mot obs u
          = (s, .error attributeErrorPacienteFechaSalida)) ∧
      cambiar_servicio_paciente listaTraslado 7 2 "UCI" none 3
        = (listaTraslado, .error attributeErrorPacienteFechaSalida) ∧
      isAppException (cambiar_servicio_paciente listaTraslado 7 2 "UCI" none 3).2
        = false :=
  ⟨fun _ _ _ _ _ _ => rfl, rfl, rfl⟩

/-- C3 (code bug): every state reachable through the admit, discharge and
transfer operations equals the initial state, because each operation
raises before its first write — `asignar_paciente_cama` never returns
`.ok`, and `liberar_cama` / `cambiar_servicio_paciente` raise
`AttributeError` unconditionally. The claimed OCCUPIED-iff-one-open-entry
correspondence is never violated by the service, but only because no
admission or discharge can ever complete; the open-entry side of the
invariant has no column (`fecha_salida`) to live on. -/
theorem c3_bed_state_ledger_invariant (s0 s : ListaState)
    (hreach : ListaReachable s0 s) :
    s = s0 ∧
      (∀ (mov : MovimientoCamaCreate) (u : Nat),
        resultOk (asignar_paciente_cama s mov u).2 = false) ∧
      (∀ (cid : Nat) (mot : String) (obs : Option String) (u : Nat),
        liberar_cama s cid mot obs u = (s, .error attributeErrorPacienteCamaId)) ∧
      (∀ (pid ncid : Nat) (mot : String) (obs : Option String) (u : Nat),
        cambiar_servicio_paciente s pid ncid mot obs u
          = (s, .error attributeErrorPacienteFechaSalida)) := by
  have hs : s = s0 := by
    induction hreach with
    | refl => rfl
    | step hr hst ih => exact (listaStep_state_eq hst).trans ih
  refine ⟨hs, ?_, fun _ _ _ _ => rfl, fun _ _ _ _ _ => rfl⟩
  intro mov u
  rw [asignar_paciente_cama_eq s mov u]
  cases findEstructura s mov.camaId <;> rfl

theorem c3_bed_state_ledger_witness :
    liberar_cama listaEjemplo 1 "ALTA MEDICA" none 9
      = (listaEjemplo, .error attributeErrorPacienteCamaId) :=
  (c3_bed_state_ledger_invariant listaEjemplo listaEjemplo
      ListaReachable.refl).2.2.1 1 "ALTA MEDICA" none 9

/-- C4 counterexample: patient 7 already occupies bed ICU-01 (`listaICU`),
and the second admission request `movDoble` for patient 7 names the
existing registry id 1, yet the admit neither succeeds nor fails with any
`PatientAlreadyAdmitted`-like application exception: it raises
`AttributeError` at the availability query (no check on the patient's
existing occupancy exists anywhere in the service). -/
theorem c4_counterexample_double_admission :
    (listaICU.camas.filter (fun c => c.pacienteId == some 7 && c.ocupada)).length
        = 1 ∧
    movDoble.pacienteId = 7 ∧ movDoble.camaId = 1 ∧
    asignar_paciente_cama listaICU movDoble 3
        = (listaICU, .error attributeErrorPacienteCamaId) ∧
    isAppException (asignar_paciente_cama listaICU movDoble 3).2 = false := by
  decide

/-- C4 amended: the admit consults only the per-hospital registry — 404
when the requested id is absent, otherwise the `AttributeError` of the
availability query — so it never succeeds, never consults the patient's
existing occupancy, and the only application exception it can raise is
`NotFoundError`; no `PatientAlreadyAdmitted` check exists. -/
theorem c4_admit_guard_amended :
    ∀ (s : ListaState) (mov : MovimientoCamaCreate) (u : Nat),
      asignar_paciente_cama s mov u
          = (s, .error (match findEstructura s mov.camaId with
              | none => HospError.notFound
                  ("Cama no encontrada con ID: " ++ toString mov.camaId)
              | some _ => attributeErrorPacienteCamaId)) ∧
        resultOk (asignar_paciente_cama s mov u).2 = false ∧
        isAppException (asignar_paciente_cama s mov u).2
          = (findEstructura s mov.camaId).isNone := by
  intro s mov u
  refine ⟨asignar_paciente_cama_eq s mov u, ?_, ?_⟩
  · rw [asignar_paciente_cama_eq s mov u]
    cases findEstructura s mov.camaId <;> rfl
  · rw [asignar_paciente_cama_eq s mov u]
    cases findEstructura s mov.camaId <;> rfl

/-- C5 (code bug): the discharge raises `AttributeError` at its first
query (`PacientePorCama.cama_id`) on every call, so no discharge ever
sets a discharge timestamp, computes a length of stay, or moves a bed to
CLEANING; evaluated concretely on the Scenario B state `listaICU`. -/
theorem c5_discharge_unimplemented :
    (∀ (s : ListaState) (camaId : Nat) (mot : String) (obs : Option String)
        (u : Nat),
        liberar_cama s camaId mot obs u = (s, .error attributeErrorPacienteCamaId) ∧
          resultOk (liberar_cama s camaId mot obs u).2 = false) ∧
      liberar_cama listaICU 1 "RECOVERED" none 3
        = (listaICU, .error attributeErrorPacienteCamaId) ∧
      isAppException (liberar_cama listaICU 1 "RECOVERED" none 3).2 = false :=
  ⟨fun _ _ _ _ _ => ⟨rfl, rfl⟩, rfl, rfl⟩

/-- C1 counterexample: `ACTIVE → EXPIRED` (01 → 03) is an edge of the §4.3
prescription graph, yet the author's own request to move an active
prescription to 03 is rejected by `cambiar_estado_receta`. -/
theorem c1_counterexample_active_to_expired_rejected :
    ("01", "03") ∈ recetaGraphSpec ∧
    recetaActiva.creadoPor = 1 ∧ recetaActiva.estado = "01" ∧
    (cambiar_estado_receta recetaStateActiva 1 "03" 1).2
      = .error (.businessRule "Transición no válida de 01 a 03") := by decide

/-- C1 amended: prescriptions — called by the author — succeed exactly on
the edges of `recetaGraphCode` (the §4.3 graph WITHOUT `ACTIVE → EXPIRED`)
and reject every off-graph pair with the transition
`BusinessRuleException`; notes finalize exactly from BORRADOR; order
status changes never consult any graph: every call raises the
`AttributeError` of the opening lookup (`selectinload(OrdenCab.detalles)`
over a relationship named `examenes`), so the order half of the claim has
no successful or `InvalidTransition` outcome at all. -/
theorem c1_transition_graph_amended :
    (∀ (s : RecetaState) (rid : Nat) (r : RecetaCab) (nuevo : String) (m : Nat),
        obtener_receta_por_id s rid = some r → r.creadoPor = m →
        (resultOk (cambiar_estado_receta s rid nuevo m).2 = true
            ↔ (r.estado, nuevo) ∈ recetaGraphCode) ∧
          ((r.estado, nuevo) ∉ recetaGraphCode →
            (cambiar_estado_receta s rid nuevo m).2
              = .error (.businessRule
                  ("Transición no válida de " ++ r.estado ++ " a " ++ nuevo)))) ∧
    (∀ (s : OrdenState) (oid : Nat) (nuevo : String) (m : Nat),
        cambiar_estado_orden s oid nuevo m
            = (s, .error attributeErrorOrdenCabDetalles) ∧
          resultOk (cambiar_estado_orden s oid nuevo m).2 = false) ∧
    (∀ (s : NotaState) (nid : Nat) (n : HospitalizacionNota) (m : Nat) (now : Int),
        obtener_nota_por_id s nid = some n → n.creadoPor = m →
        (resultOk (finalizar_nota s nid m now).2 = true ↔ n.estado = "BORRADOR") ∧
          (n.estado ≠ "BORRADOR" →
            (finalizar_nota s nid m now).2
              = .error (.businessRule "Solo se pueden finalizar notas en borrador"))) := by
  refine ⟨?_, fun s oid nuevo m => ⟨rfl, rfl⟩, ?_⟩
  · intro s rid r nuevo m hf hm
    cases hcc : (transicionesValidasReceta r.estado).contains nuevo with
    | true =>
      have hccm : nuevo ∈ transicionesValidasReceta r.estado := by simpa using hcc
      have hval : validarCambioEstadoReceta r nuevo m = .ok () := by
        simp [validarCambioEstadoReceta, hm, hccm]
      constructor
      · simp only [cambiar_estado_receta, hf, hval, resultOk]
        simpa using (receta_contains_iff r.estado nuevo).mp hcc
      · intro hnot
        exact absurd ((receta_contains_iff r.estado nuevo).mp hcc) hnot
    | false =>
      have hccm : nuevo ∉ transicionesValidasReceta r.estado := by simpa using hcc
      have hval : validarCambioEstadoReceta r nuevo m
          = .error (.businessRule
              ("Transición no válida de " ++ r.estado ++ " a " ++ nuevo)) := by
        simp [validarCambioEstadoReceta, hm, hccm]
      constructor
      · simp only [cambiar_estado_receta, hf, hval, resultOk]
        constructor
        · intro hfalse; exact absurd hfalse (by simp)
        · intro hmem
          have := (receta_contains_iff r.estado nuevo).mpr hmem
          rw [hcc] at this
          exact absurd this (by simp)
      · intro _
        simp [cambiar_estado_receta, hf, hval]
  · intro s nid n m now hf hm
    by_cases he : n.estado = "BORRADOR"
    · constructor
      · simp [finalizar_nota, hf, hm, he, resultOk]
      · intro hne; exact absurd he hne
    · constructor
      · simp [finalizar_nota, hf, hm, he, resultOk]
      · intro _; simp [finalizar_nota, hf, hm, he]

theorem c1_transition_graph_witness :
    resultOk (cambiar_estado_receta recetaStateActiva 1 "02" 1).2 = true :=
  ((c1_transition_graph_amended.1 recetaStateActiva 1 recetaActiva "02" 1
    rfl rfl).1).mpr (by decide)

/-- C6 (code bug): no successful create exists to carry a number — every
`crear_receta` call raises (at the latest the `MissingGreenlet` of the
auto-sign check, after validation and numbering have run) and every
`crear_orden` call raises the `AttributeError` at `orden_data.detalles`,
each leaving the state unchanged. The number generator the receta path
does execute before dying follows the claimed shape
`RX ++ YYYYMMDD ++ 4-digit padded (same-day count + 1)`; the concrete
conjuncts evaluate both creates on schema-valid requests. -/
theorem c6_document_number_format :
    (∀ (s : RecetaState) (hoy : Date),
        generarNumeroReceta s hoy
          = "RX" ++ formatYYYYMMDD hoy ++ padZeros 4 (countRecetasDia s hoy + 1)) ∧
    (∀ (s : RecetaState) (data : RecetaCabCreate) (m : Nat) (now : Int) (hoy : Date),
        (crear_receta s data m now hoy).1 = s ∧
          resultOk (crear_receta s data m now hoy).2 = false) ∧
    (∀ (s : OrdenState) (data : OrdenCabCreate) (m : Nat),
        (crear_orden s data m).1 = s ∧
          resultOk (crear_orden s data m).2 = false) ∧
    recetaCabCreateValida recetaCreate2 = true ∧
    crear_receta recetaStateEjemplo recetaCreate2 1 0 d20240101
      = (recetaStateEjemplo, .error missingGreenletRecetaDetalles) ∧
    ordenCabCreateValida ordenCreate1 = true ∧
    crear_orden ordenStateEjemplo ordenCreate1 1
      = (ordenStateEjemplo, .error attributeErrorOrdenCreateDetalles) := by
  refine ⟨fun s hoy => rfl,
    fun s data m now hoy => crear_receta_never_ok s data m now hoy,
    fun s data m => ⟨(crear_orden_never_ok s data m).1,
      (crear_orden_never_ok s data m).2.1⟩,
    by decide, by decide, by decide, by decide⟩

/-- A failed prescription-creation validation is always a
`BusinessRuleException`. -/
theorem validarCreacionReceta_error_shape {s : RecetaState}
    {data : RecetaCabCreate} {m : Nat} {hoy : Date} {e : HospError}
    (h : validarCreacionReceta s data m hoy = .error e) :
    ∃ msg, e = .businessRule msg := by
  unfold validarCreacionReceta at h
  cases hf : findUser s.users m with
  | none =>
    rw [hf] at h
    dsimp only at h
    exact ⟨_, (Except.error.inj h).symm⟩
  | some medico =>
    rw [hf] at h
    dsimp only at h
    by_cases h1 : (!(strTruthy medico.especialidad) || !(strTruthy medico.colegiatura)) = true
    · rw [if_pos h1] at h; exact ⟨_, (Except.error.inj h).symm⟩
    · rw [if_neg h1] at h
      by_cases h2 : recetasDuplicadasHoy s data hoy > 0
      · rw [if_pos h2] at h; exact ⟨_, (Except.error.inj h).symm⟩
      · rw [if_neg h2] at h
        by_cases h3 : data.detalles.length > 10
        · rw [if_pos h3] at h; exact ⟨_, (Except.error.inj h).symm⟩
        · rw [if_neg h3] at h
          by_cases h4 : (data.detalles.length == 0) = true
          · rw [if_pos h4] at h; exact ⟨_, (Except.error.inj h).symm⟩
          · rw [if_neg h4] at h; exact absurd h (by simp)

/-- A prescription creation that passes validation has between 1 and 10
medication lines. -/
theorem validarCreacionReceta_ok_counts {s : RecetaState}
    {data : RecetaCabCreate} {m : Nat} {hoy : Date}
    (h : validarCreacionReceta s data m hoy = .ok ()) :
    ¬(data.detalles.length = 0 ∨ data.detalles.length > 10) := by
  unfold validarCreacionReceta at h
  cases hf : findUser s.users m with
  | none => rw [hf] at h; exact absurd h (by simp)
  | some medico =>
    rw [hf] at h
    dsimp only at h
    by_cases h1 : (!(strTruthy medico.especialidad) || !(strTruthy medico.colegiatura)) = true
    · rw [if_pos h1] at h; exact absurd h (by simp)
    · rw [if_neg h1] at h
      by_cases h2 : recetasDuplicadasHoy s data hoy > 0
      · rw [if_pos h2] at h; exact absurd h (by simp)
      · rw [if_neg h2] at h
        by_cases h3 : data.detalles.length > 10
        · rw [if_pos h3] at h; exact absurd h (by simp)
        · rw [if_neg h3] at h
          by_cases h4 : (data.detalles.length == 0) = true
          · rw [if_pos h4] at h; exact absurd h (by simp)
          · rintro (h0 | h10)
            · exact h4 (by simpa using h0)
            · exact h3 h10

/-- C7 counterexample: Scenario D replayed — the 21-exam-line order
request is constructible (the order schema has no upper bound), yet its
create fails with the `AttributeError` at `orden_data.detalles`, not with
any `ValidationError`, and never reaches the dead
`Máximo 20 exámenes por orden` guard. -/
theorem c7_counterexample_error_kind :
    ordenCabCreateValida ordenCreate21 = true ∧
    ordenCreate21.examenes.length = 21 ∧
    crear_orden ordenStateEjemplo ordenCreate21 1
        = (ordenStateEjemplo, .error attributeErrorOrdenCreateDetalles) ∧
    isValidationError (crear_orden ordenStateEjemplo ordenCreate21 1).2
        = false := by decide

/-- C7 amended: for prescriptions the count rule lives in the request
schema — a constructible `RecetaCabCreate` has 1 to 10 lines, and a
request outside those bounds is rejected by the schema and, were it to
reach the service, by a `BusinessRuleException` (never
`ValidationException`) with nothing committed; for orders no count is
ever examined: every create fails (never with `ValidationException`) and
commits nothing regardless of the exam count. -/
theorem c7_detail_count_amended :
    (∀ (data : RecetaCabCreate), recetaCabCreateValida data = true →
        1 ≤ data.detalles.length ∧ data.detalles.length ≤ 10) ∧
    (∀ (s : RecetaState) (data : RecetaCabCreate) (m : Nat) (now : Int) (hoy : Date),
        data.detalles.length = 0 ∨ data.detalles.length > 10 →
        recetaCabCreateValida data = false ∧
          (∃ msg, (crear_receta s data m now hoy).2 = .error (.businessRule msg)) ∧
          (crear_receta s data m now hoy).1 = s) ∧
    (∀ (s : OrdenState) (data : OrdenCabCreate) (m : Nat),
        (crear_orden s data m).1 = s ∧
          resultOk (crear_orden s data m).2 = false ∧
          isValidationError (crear_orden s data m).2 = false) := by
  refine ⟨?_, ?_, fun s data m => crear_orden_never_ok s data m⟩
  · intro data h
    unfold recetaCabCreateValida at h
    simp only [Bool.and_eq_true, decide_eq_true_eq] at h
    exact ⟨h.1.1.2, h.1.2⟩
  · intro s data m now hoy hbad
    refine ⟨?_, ?_⟩
    · rcases hbad with h0 | h10
      · have hd : decide (1 ≤ data.detalles.length) = false :=
          decide_eq_false (by omega)
        simp [recetaCabCreateValida, hd]
      · have hd : decide (data.detalles.length ≤ 10) = false :=
          decide_eq_false (by omega)
        simp [recetaCabCreateValida, hd]
    · cases hval : validarCreacionReceta s data m hoy with
      | error e =>
        obtain ⟨msg, rfl⟩ := validarCreacionReceta_error_shape hval
        exact ⟨⟨msg, by simp [crear_receta, hval]⟩, by simp [crear_receta, hval]⟩
      | ok u =>
        cases u
        exact absurd hbad (validarCreacionReceta_ok_counts hval)

theorem c7_detail_count_witness :
    recetaCabCreateValida recetaCreate11 = false ∧
      (∃ msg, (crear_receta recetaStateEjemplo recetaCreate11 1 0 d20240101).2
          = .error (.businessRule msg)) ∧
      (crear_receta recetaStateEjemplo recetaCreate11 1 0 d20240101).1
        = recetaStateEjemplo :=
  c7_detail_count_amended.2.1 recetaStateEjemplo recetaCreate11 1 0 d20240101
    (Or.inr (by decide))

/-- C8 counterexample: `recetaActiva` is signed (`firmada = true`) and
still in status 01, yet its author's update succeeds and is committed —
`_validar_modificacion_receta` never consults the signed flag, so
Scenario C's "update of a signed document fails" is false. -/
theorem c8_counterexample_signed_update_succeeds :
    recetaActiva.firmada = true ∧ recetaActiva.estado = "01" ∧
    resultOk (actualizar_receta recetaStateActiva 1 recetaUpdateEj 1 0).2 = true ∧
    (actualizar_receta recetaStateActiva 1 recetaUpdateEj 1 0).1.recetas.map
        (fun r => r.diagnosticoPrincipal) = [some "J06"] := by decide

/-- C8 amended: the update guards are per type — author plus status 01
plus the 24h-before-expiry window for prescriptions, the signed flag
never consulted; author plus BORRADOR plus unsigned for notes; orders
cannot be updated at all (every `actualizar_orden` call raises the
lookup's `AttributeError`, its author/status guard being dead code) —
and a rejected prescription or note update commits nothing. -/
theorem c8_update_guard_amended :
    (∀ (receta : RecetaCab) (m : Nat) (now : Int),
        validarModificacionReceta receta m now = .ok ()
          ↔ (receta.creadoPor = m ∧ receta.estado = "01" ∧
              ∀ v, receta.fechaVencimiento = some v → ¬ now > v - 86400)) ∧
    (∀ (nota : HospitalizacionNota) (m : Nat),
        validarPermisosEdicion nota m = .ok ()
          ↔ (nota.creadoPor = m ∧ nota.estado = "BORRADOR" ∧ nota.firmada = false)) ∧
    (∀ (s : OrdenState) (oid : Nat) (data : OrdenCabUpdate) (m : Nat),
        actualizar_orden s oid data m = (s, .error attributeErrorOrdenCabDetalles)) ∧
    (∀ (s : RecetaState) (rid : Nat) (data : RecetaCabUpdate) (m : Nat)
        (now : Int) (e : HospError),
        (actualizar_receta s rid data m now).2 = .error e →
        (actualizar_receta s rid data m now).1 = s) ∧
    (∀ (s : NotaState) (nid : Nat) (data : NotaUpdate) (m : Nat)
        (now : Int) (e : HospError),
        (actualizar_nota s nid data m now).2 = .error e →
        (actualizar_nota s nid data m now).1 = s) := by
  refine ⟨?_, ?_, fun s oid data m => rfl, ?_, ?_⟩
  · intro receta m now
    unfold validarModificacionReceta
    by_cases h1 : receta.creadoPor = m
    · by_cases h2 : receta.estado = "01"
      · cases hv : receta.fechaVencimiento with
        | none => simp [h1, h2, hv]
        | some v =>
          by_cases h3 : now > v - 86400
          · simp [h1, h2, hv, h3]
          · simp [h1, h2, hv, h3]
            omega
      · simp [h1, h2]
    · simp [h1]
  · intro nota m
    unfold validarPermisosEdicion
    by_cases h1 : nota.creadoPor = m
    · by_cases h2 : nota.estado = "BORRADOR"
      · by_cases h3 : nota.firmada
        · simp [h1, h2, h3]
        · simp [h1, h2, h3]
      · simp [h1, h2]
    · simp [h1]
  · intro s rid data m now e h
    cases hf : obtener_receta_por_id s rid with
    | none => simp [actualizar_receta, hf]
    | some r =>
      cases hv : validarModificacionReceta r m now with
      | error e2 => simp [actualizar_receta, hf, hv]
      | ok u =>
        cases u
        simp [actualizar_receta, hf, hv] at h
  · intro s nid data m now e h
    cases hf : obtener_nota_por_id s nid with
    | none => simp [actualizar_nota, hf]
    | some n =>
      cases hv : validarPermisosEdicion n m with
      | error e2 => simp [actualizar_nota, hf, hv]
      | ok u =>
        cases u
        simp [actualizar_nota, hf, hv] at h

theorem c8_update_guard_witness :
    validarModificacionReceta recetaActiva 1 0 = .ok () :=
  (c8_update_guard_amended.1 recetaActiva 1 0).mpr
    ⟨rfl, rfl, by intro v hv; simp [recetaActiva] at hv; omega⟩

/-- C9 counterexample: doctor 2 is not the author of `ordenPendiente`
(doctor 1 is), yet their status-change request does not fail with any
permission error — it raises the lookup's `AttributeError` (and would
raise identically for the author: `_validar_cambio_estado` never reads
`medico_id`). -/
theorem c9_counterexample_orden_no_author_check :
    ordenPendiente.creadoPor = 1 ∧
    cambiar_estado_orden ordenStatePendiente 1 "02" 2
        = (ordenStatePendiente, .error attributeErrorOrdenCabDetalles) ∧
    isPermissionDenied (cambiar_estado_orden ordenStatePendiente 1 "02" 2).2
        = false := by decide

/-- C9 amended: prescriptions reject a non-author actor with a
`BusinessRuleException` (not the permission kind) and notes with
`MedicoPermissionException`, both leaving the state unchanged; order
status changes never reach any author logic — every call raises the
lookup's `AttributeError` for every actor. -/
theorem c9_author_only_amended :
    (∀ (s : RecetaState) (rid : Nat) (r : RecetaCab) (nuevo : String) (m : Nat),
        obtener_receta_por_id s rid = some r → r.creadoPor ≠ m →
        (cambiar_estado_receta s rid nuevo m).2
            = .error (.businessRule "Solo el médico creador puede cambiar el estado") ∧
          isPermissionDenied (cambiar_estado_receta s rid nuevo m).2 = false ∧
          (cambiar_estado_receta s rid nuevo m).1 = s) ∧
    (∀ (s : NotaState) (nid : Nat) (n : HospitalizacionNota) (m : Nat) (now : Int),
        obtener_nota_por_id s nid = some n → n.creadoPor ≠ m →
        (finalizar_nota s nid m now).2
            = .error (.medicoPermission "Solo el médico creador puede finalizar la nota") ∧
          (finalizar_nota s nid m now).1 = s) ∧
    (∀ (s : OrdenState) (oid : Nat) (nuevo : String) (m : Nat),
        cambiar_estado_orden s oid nuevo m
          = (s, .error attributeErrorOrdenCabDetalles)) := by
  refine ⟨?_, ?_, fun s oid nuevo m => rfl⟩
  · intro s rid r nuevo m hf hne
    have hval : validarCambioEstadoReceta r nuevo m
        = .error (.businessRule "Solo el médico creador puede cambiar el estado") := by
      simp [validarCambioEstadoReceta, hne]
    refine ⟨by simp [cambiar_estado_receta, hf, hval], ?_,
           by simp [cambiar_estado_receta, hf, hval]⟩
    simp [cambiar_estado_receta, hf, hval, isPermissionDenied]
  · intro s nid n m now hf hne
    exact ⟨by simp [finalizar_nota, hf, hne],
           by simp [finalizar_nota, hf, hne]⟩

theorem c9_author_only_witness :
    (cambiar_estado_receta recetaStateActiva 1 "02" 2).2
        = .error (.businessRule "Solo el médico creador puede cambiar el estado") ∧
    (finalizar_nota notaStateEjemplo 1 2 5).2
        = .error (.medicoPermission "Solo el médico creador puede finalizar la nota") ∧
    cambiar_estado_orden ordenStatePendiente 1 "02" 1
      = (ordenStatePendiente, .error attributeErrorOrdenCabDetalles) :=
  ⟨(c9_author_only_amended.1 recetaStateActiva 1 recetaActiva "02" 2 rfl
      (by decide)).1,
   (c9_author_only_amended.2.1 notaStateEjemplo 1 notaBorrador 2 5 rfl
      (by decide)).1,
   c9_author_only_amended.2.2 ordenStatePendiente 1 "02" 1⟩

/-- C10: a validated status change of a prescription to 04 (Anulada)
additionally resets `firmada` and clears `fecha_firma` and `hash_firma`,
while a validated change to any other status only replaces the status and
leaves the three signature fields as they were. -/
theorem c10_void_clears_signature :
    (∀ (s : RecetaState) (rid : Nat) (r : RecetaCab) (m : Nat),
        obtener_receta_por_id s rid = some r →
        validarCambioEstadoReceta r "04" m = .ok () →
        (cambiar_estado_receta s rid "04" m).2
          = .ok { r with estado := "04", firmada := false,
                         fechaFirma := none, hashFirma := none }) ∧
    (∀ (s : RecetaState) (rid : Nat) (r : RecetaCab) (nuevo : String) (m : Nat),
        obtener_receta_por_id s rid = some r → nuevo ≠ "04" →
        validarCambioEstadoReceta r nuevo m = .ok () →
        (cambiar_estado_receta s rid nuevo m).2 = .ok { r with estado := nuevo }) := by
  constructor
  · intro s rid r m hf hv
    simp [cambiar_estado_receta, hf, hv]
  · intro s rid r nuevo m hf hne hv
    simp [cambiar_estado_receta, hf, hv, hne]

theorem c10_void_clears_signature_witness :
    (cambiar_estado_receta recetaStateActiva 1 "04" 1).2
        = .ok { recetaActiva with estado := "04", firmada := false,
                                  fechaFirma := none, hashFirma := none } ∧
    (cambiar_estado_receta recetaStateActiva 1 "02" 1).2
        = .ok { recetaActiva with estado := "02" } :=
  ⟨c10_void_clears_signature.1 recetaStateActiva 1 recetaActiva 1 rfl (by decide),
   c10_void_clears_signature.2 recetaStateActiva 1 recetaActiva "02" 1 rfl
     (by decide) (by decide)⟩
